import Mathlib

/-!
Shallow embedding of the scoring and odds engine of the college-planning
application (source module exporting `rateStudent`, `rateCollege`,
`getAdmissionOdds`).

Modelling conventions:
* JavaScript numbers are modelled as exact rationals; `NaN` is modelled by
  `none` in `Option ℚ` (infinities do not arise on the paths the claims
  touch, so they are not modelled).  All JS comparisons with `NaN` are
  false, which the definitions below reproduce by matching on `none`.
* A raw input field (which in JS may be `undefined`, `null`, a number or a
  string) is the inductive `JSVal`.
* `parseFloat` / `parseInt` are modelled on trimmed decimal literals
  (optional sign, digit runs); exotic forms (exponents, `Infinity`, hex)
  are outside the model and are not exercised by any claim.
* `Math.round` is floor of `x + 1/2` (JS rounds half toward +infinity).
-/

/-- Raw JavaScript value of an input field: `undefined`, `null`, a number
(`none` inside `num` is `NaN`) or a string. -/
inductive JSVal where
  | undefined
  | jsNull
  | num (q : Option ℚ)
  | str (s : String)
deriving DecidableEq

/-- Numeric value of a run of decimal digit characters. -/
def natOfDigits (ds : List Char) : ℕ :=
  ds.foldl (fun n c => 10 * n + (c.toNat - 48)) 0

/-- Whitespace trimming on character lists (model of JS `trim` and of the
whitespace skipping of `parseInt` / `parseFloat`). -/
def trimList (cs : List Char) : List Char :=
  ((cs.dropWhile Char.isWhitespace).reverse.dropWhile Char.isWhitespace).reverse

/-- Whitespace trimming on strings, via `trimList`. -/
def jsTrim (s : String) : String := ⟨trimList s.toList⟩

/-- Leading digit run of a character list as a rational, `none` if the list
does not start with a digit (JS `parseInt` returning `NaN`). -/
def parseDigits (cs : List Char) : Option ℚ :=
  let ds := cs.takeWhile Char.isDigit
  if ds.isEmpty then none else some (natOfDigits ds : ℚ)

/-- Model of JS `parseInt(s, 10)`: skip whitespace, optional sign, then a
leading run of decimal digits; `none` models `NaN`. -/
def jsParseInt (s : String) : Option ℚ :=
  match trimList s.toList with
  | '-' :: rest => (parseDigits rest).map (fun q => -q)
  | '+' :: rest => parseDigits rest
  | cs => parseDigits cs

/-- Leading decimal literal `digits [. digits]` of a character list as a
rational, `none` if no digit is present (JS `parseFloat` returning `NaN`). -/
def parseDecimal (cs : List Char) : Option ℚ :=
  let intPart := cs.takeWhile Char.isDigit
  let rest := cs.dropWhile Char.isDigit
  let fracPart := match rest with
    | '.' :: r => r.takeWhile Char.isDigit
    | _ => []
  if intPart.isEmpty && fracPart.isEmpty then none
  else some ((natOfDigits intPart : ℚ) + (natOfDigits fracPart : ℚ) / 10 ^ fracPart.length)

/-- Model of JS `parseFloat(s)`: skip whitespace, optional sign, then a
decimal literal; `none` models `NaN`. -/
def jsParseFloat (s : String) : Option ℚ :=
  match trimList s.toList with
  | '-' :: rest => (parseDecimal rest).map (fun q => -q)
  | '+' :: rest => parseDecimal rest
  | cs => parseDecimal cs

/-- Model of the coercion `typeof v === 'string' ? parse(v) : (v || 0)`
used for every numeric field: strings are parsed (`none` = `NaN`), and any
falsy non-string (`undefined`, `null`, `0`, `NaN`) becomes `0`. -/
def coerceNum (parse : String → Option ℚ) : JSVal → Option ℚ
  | .str s => parse s
  | .num (some q) => some q
  | .num none => some 0
  | .undefined => some 0
  | .jsNull => some 0

/-- Model of JS `Math.round`: round half toward positive infinity. -/
def jsRound (q : ℚ) : ℤ := ⌊q + 1 / 2⌋

/-- Outcome of the GPT activity-strength capability call: `failure` covers a
thrown error, a non-2xx response or an unusable payload shape; `success`
carries the text content of the first choice's message. -/
inductive GptOutcome where
  | failure
  | success (content : String)

/-- First maximal run of digits in a string, as matched by the regex
`/(\d+)/` and parsed with `parseInt(_, 10)`; `none` when no digit occurs. -/
def firstDigitRun (s : String) : Option ℕ :=
  let ds := (s.toList.dropWhile (fun c => ¬ c.isDigit)).takeWhile Char.isDigit
  if ds.isEmpty then none else some (natOfDigits ds)

/-- Model of `getActivitiesScore`: neutral `5.5` when the activities text is
blank, the API key is missing, the call fails, or no digit can be extracted
from the answer; otherwise the extracted integer clamped into `[1, 10]`. -/
def getActivitiesScore (activitiesText : String) (hasKey : Bool)
    (outcome : GptOutcome) : ℚ :=
  if jsTrim activitiesText = "" then 5.5
  else if !hasKey then 5.5
  else match outcome with
    | .failure => 5.5
    | .success content =>
      match firstDigitRun (jsTrim content) with
      | none => 5.5
      | some score => min 10 (max 1 (score : ℚ))

/-- Clamp of a score into `[0, 100]`, `Math.max(0, Math.min(100, x))`. -/
def clamp100 (x : ℚ) : ℚ := max 0 (min 100 x)

/-- Numeric core of `getAdmissionOdds` once both inputs have coerced to real
numbers.  The initial linear `odds` assignment in the source is dead (it is
overwritten by the sigmoid-based value before use) and is omitted, as the
source's final value is the sigmoid one. -/
def oddsQ (studentScore collegeScore : ℚ) : ℤ :=
  let studentNorm := clamp100 studentScore
  let collegeNorm := clamp100 collegeScore
  let delta := studentNorm - collegeNorm
  let baseOdds : ℚ := 50
  let deltaMultiplier : ℚ := 1.5
  let sigmoidFactor : ℚ := 0.8
  let normalizedDelta := delta / 50
  let sigmoidDelta := (normalizedDelta / (1 + |normalizedDelta| * sigmoidFactor)) * 50
  let odds := baseOdds + (sigmoidDelta * deltaMultiplier)
  jsRound (max 2 (min 98 odds))

/-- Model of `getAdmissionOdds`: both inputs go through the string-parse /
falsy-to-zero coercion; if either coerces to `NaN` (`none`), the `NaN`
propagates through `Math.min`, `Math.max`, the arithmetic and `Math.round`,
so the function returns `NaN` (`none`). -/
def getAdmissionOdds (studentScore collegeScore : JSVal) : Option ℤ :=
  match coerceNum jsParseFloat studentScore, coerceNum jsParseFloat collegeScore with
  | some s, some c => some (oddsQ s c)
  | _, _ => none

/-- One AP course record `{course, score}`.  The course name is the string
tested for truthiness by the `c.course` filter; the score may be a number or
a string. -/
structure APCourse where
  course : String
  score : JSVal
deriving DecidableEq

/-- One structured activity row `{hours, description}`; both fields are
strings tested for truthiness (non-emptiness). -/
structure ActivityRow where
  hours : String
  description : String
deriving DecidableEq

/-- The documented shapes of the `activities` field: a legacy free-text block
or a structured array (whose entries may be null, hence `Option`). -/
inductive ActivitiesField where
  | legacy (s : String)
  | structured (rows : List (Option ActivityRow))

/-- A `StudentInput` record as destructured by `rateStudent`; array entries
may be null, hence the `Option` elements.  `weighted` defaults to `true` in
the source destructuring. -/
structure Student where
  gpa : JSVal := .undefined
  weighted : Bool := true
  sat : JSVal := .undefined
  act : JSVal := .undefined
  apCourses : List (Option APCourse) := []
  activities : ActivitiesField := .legacy ""

namespace Student

/-- Flattening of the activities field into the multiline text sent to the
capability: structured rows keep only truthy descriptions and render as
`"<hours> hrs — <description>"` (hours prefix only when truthy), joined by
newlines; a legacy string is used as-is. -/
def activitiesText (s : Student) : String :=
  match s.activities with
  | .legacy t => t
  | .structured rows =>
    String.intercalate "\n"
      (((rows.filterMap id).filter (fun a => decide (a.description ≠ ""))).map
        (fun a => (if a.hours ≠ "" then a.hours ++ " hrs — " else "") ++ a.description))

/-- Coerced GPA, `typeof gpa === 'string' ? parseFloat(gpa) : (gpa || 0)`. -/
def gpaNum (s : Student) : Option ℚ := coerceNum jsParseFloat s.gpa

/-- GPA denominator: 5.0 for weighted GPAs, 4.0 for unweighted. -/
def gpaMax (s : Student) : ℚ := if s.weighted then 5.0 else 4.0

/-- GPA dimension, `gpaNum > 0 ? Math.min(1, gpaNum / gpaMax) : 0` (a `NaN`
comparison is false, hence the `none` branch yields 0). -/
def gpaNorm (s : Student) : ℚ :=
  match s.gpaNum with
  | some g => if 0 < g then min 1 (g / s.gpaMax) else 0
  | none => 0

/-- Coerced SAT, `typeof sat === 'string' ? parseInt(sat, 10) : (sat || 0)`. -/
def satNum (s : Student) : Option ℚ := coerceNum jsParseInt s.sat

/-- Coerced ACT, `typeof act === 'string' ? parseInt(act, 10) : (act || 0)`. -/
def actNum (s : Student) : Option ℚ := coerceNum jsParseInt s.act

/-- The untested check: both SAT and ACT are zero (`=== 0`), the empty
string, `null` or `undefined`. -/
def isUntaken (s : Student) : Bool :=
  decide ((s.satNum = some 0 ∨ s.sat = JSVal.str "" ∨ s.sat = JSVal.jsNull ∨ s.sat = JSVal.undefined) ∧
          (s.actNum = some 0 ∨ s.act = JSVal.str "" ∨ s.act = JSVal.jsNull ∨ s.act = JSVal.undefined))

/-- SAT dimension: the untested substitute `(800 - 400) / 1200`, else the
linear map of a positive SAT over `[400, 1600]` capped at 1. -/
def satNorm (s : Student) : ℚ :=
  if s.isUntaken then min 1 ((800 - 400) / (1600 - 400) : ℚ)
  else match s.satNum with
    | some q => if 0 < q then min 1 ((q - 400) / (1600 - 400)) else 0
    | none => 0

/-- ACT dimension: linear map of a positive ACT over `[1, 36]` capped at 1,
only when not untested. -/
def actNorm (s : Student) : ℚ :=
  if !s.isUntaken then
    match s.actNum with
    | some q => if 0 < q then min 1 ((q - 1) / (36 - 1)) else 0
    | none => 0
  else 0

/-- Test dimension: the larger of the SAT and ACT normalized values. -/
def testNorm (s : Student) : ℚ := max s.satNorm s.actNorm

/-- AP records that survive the `c && c.course` filter. -/
def validAps (s : Student) : List APCourse :=
  (s.apCourses.filterMap id).filter (fun c => decide (c.course ≠ ""))

/-- Coerced AP score with the `Number.isFinite(s) ? s : 0` guard: a string
parses via `parseFloat`, falsy non-strings become 0, and `NaN` becomes 0. -/
def apScoreVal (c : APCourse) : ℚ := (coerceNum jsParseFloat c.score).getD 0

/-- Average AP score over the valid records (0 when there are none). -/
def apAvgScore (s : Student) : ℚ :=
  if s.validAps.length > 0 then
    (s.validAps.foldl (fun sum c => sum + apScoreVal c) 0) / (s.validAps.length : ℚ)
  else 0

/-- AP count dimension, `min(1, apCount / 10)`. -/
def apCountNorm (s : Student) : ℚ := min 1 ((s.validAps.length : ℚ) / 10)

/-- AP average-score dimension, `min(1, apAvgScore / 5)`. -/
def apScoreNorm (s : Student) : ℚ := min 1 (s.apAvgScore / 5)

/-- AP rigor dimension: even blend of count and score dimensions when at
least one valid AP exists, else 0. -/
def apNorm (s : Student) : ℚ :=
  if s.validAps.length > 0 then 0.5 * s.apCountNorm + 0.5 * s.apScoreNorm else 0

/-- Weighted composite of the four student dimensions, taking the 1–10
activities score as a parameter (its normalization divides by 10). -/
def composite (s : Student) (activitiesScore10 : ℚ) : ℚ :=
  0.35 * s.gpaNorm + 0.30 * s.testNorm + 0.15 * s.apNorm +
    0.20 * (activitiesScore10 / 10)

end Student

/-- Model of `rateStudent`, parameterized by the key configuration and the
capability outcome that `getActivitiesScore` observes. -/
def rateStudent (s : Student) (hasKey : Bool) (outcome : GptOutcome) : ℤ :=
  jsRound (s.composite (getActivitiesScore s.activitiesText hasKey outcome) * 100)

/-- A `CollegeInput` record as destructured by `rateCollege`. -/
structure College where
  acceptance_rate : JSVal := .undefined
  sat_50th_percentile : JSVal := .undefined
  act_50th_percentile : JSVal := .undefined
  graduation_rate : JSVal := .undefined
  retention_rate : JSVal := .undefined
  median_earnings_10_years : JSVal := .undefined
  enrollment : JSVal := .undefined
  student_faculty_ratio : JSVal := .undefined

/-- Model of the `parseNum` helper in `rateCollege`: `null`, `undefined` and
`''` give `null`; strings parse via `parseFloat`; non-finite results
(`NaN`) give `null`. -/
def parseNum : JSVal → Option ℚ
  | .jsNull => none
  | .undefined => none
  | .str "" => none
  | .str s => jsParseFloat s
  | .num q => q

namespace College

/-- Selectivity dimension: inverted acceptance rate when present and in
`[0,1]`, with the reach-school boost (×1.2, re-capped at 1) below 20%. -/
def acceptanceNorm (c : College) : ℚ :=
  match parseNum c.acceptance_rate with
  | some r =>
    if 0 ≤ r ∧ r ≤ 1 then
      if r < 0.2 then min 1 ((1 - r) * 1.2) else 1 - r
    else 0
  | none => 0

/-- Median-SAT dimension: linear over `[400, 1600]` only inside that
domain. -/
def satNorm (c : College) : ℚ :=
  match parseNum c.sat_50th_percentile with
  | some q => if 400 ≤ q ∧ q ≤ 1600 then (q - 400) / (1600 - 400) else 0
  | none => 0

/-- Median-ACT dimension: linear over `[1, 36]` only inside that domain. -/
def actNorm (c : College) : ℚ :=
  match parseNum c.act_50th_percentile with
  | some q => if 1 ≤ q ∧ q ≤ 36 then (q - 1) / (36 - 1) else 0
  | none => 0

/-- Test dimension: larger of the SAT and ACT normalized values. -/
def testNorm (c : College) : ℚ := max c.satNorm c.actNorm

/-- Graduation dimension: pass-through when present and in `[0,1]`. -/
def graduationNorm (c : College) : ℚ :=
  match parseNum c.graduation_rate with
  | some r => if 0 ≤ r ∧ r ≤ 1 then r else 0
  | none => 0

/-- Retention dimension: pass-through when present and in `[0,1]`. -/
def retentionNorm (c : College) : ℚ :=
  match parseNum c.retention_rate with
  | some r => if 0 ≤ r ∧ r ≤ 1 then r else 0
  | none => 0

/-- Earnings dimension: linear over `[30000, 150000]`, clamped to `[0,1]`,
for positive earnings. -/
def earningsNorm (c : College) : ℚ :=
  match parseNum c.median_earnings_10_years with
  | some e =>
    if 0 < e then min 1 (max 0 ((e - 30000) / (150000 - 30000))) else 0
  | none => 0

/-- Enrollment dimension: the three-way shaped curve peaking at 15000. -/
def enrollmentNorm (c : College) : ℚ :=
  match parseNum c.enrollment with
  | some e =>
    if 0 < e then
      if 5000 ≤ e ∧ e ≤ 30000 then 0.8 + 0.2 * (1 - |e - 15000| / 15000)
      else if 30000 < e then 0.7
      else min 0.6 (e / 5000)
    else 0
  | none => 0

/-- Faculty-ratio dimension: inverted linear map, 5:1 ↦ 1, 25:1 ↦ 0,
clamped to `[0,1]`, for positive ratios. -/
def ratioNorm (c : College) : ℚ :=
  match parseNum c.student_faculty_ratio with
  | some r => if 0 < r then max 0 (min 1 (1 - (r - 5) / 20)) else 0
  | none => 0

/-- Weighted composite of the seven college dimensions (weights sum to 1). -/
def composite (c : College) : ℚ :=
  0.30 * c.acceptanceNorm + 0.25 * c.testNorm + 0.15 * c.graduationNorm +
    0.10 * c.retentionNorm + 0.10 * c.earningsNorm + 0.05 * c.enrollmentNorm +
    0.05 * c.ratioNorm

end College

/-- Model of `rateCollege`: the composite scaled to 0–100 and rounded. -/
def rateCollege (c : College) : ℤ := jsRound (c.composite * 100)

/-! Helper lemmas about rounding, clamping and the sigmoid transform. -/

theorem jsRound_mono {a b : ℚ} (h : a ≤ b) : jsRound a ≤ jsRound b :=
  Int.floor_mono (by linarith)

theorem le_jsRound {z : ℤ} {q : ℚ} (h : (z : ℚ) ≤ q) : z ≤ jsRound q :=
  Int.le_floor.mpr (by linarith)

theorem jsRound_le {z : ℤ} {q : ℚ} (h : q ≤ (z : ℚ)) : jsRound q ≤ z := by
  have : jsRound q < z + 1 := by
    refine Int.floor_lt.mpr ?_
    push_cast
    linarith
  omega

theorem sig_core_mono {u v : ℚ} (h : u ≤ v) :
    u / (1 + |u| * 0.8) ≤ v / (1 + |v| * 0.8) := by
  have hu : (0 : ℚ) < 1 + |u| * 0.8 := by positivity
  have hv : (0 : ℚ) < 1 + |v| * 0.8 := by positivity
  rw [div_le_div_iff₀ hu hv]
  rcases abs_cases u with ⟨eu, su⟩ | ⟨eu, su⟩ <;>
    rcases abs_cases v with ⟨ev, sv⟩ | ⟨ev, sv⟩ <;>
      rw [eu, ev] <;> nlinarith

theorem clamp_sym (x : ℚ) :
    max 2 (min 98 (50 + x)) + max 2 (min 98 (50 - x)) = 100 := by
  simp only [max_def, min_def]
  split_ifs <;> linarith

theorem round_pair {x y : ℚ} (h : x + y = 101) :
    100 ≤ ⌊x⌋ + ⌊y⌋ ∧ ⌊x⌋ + ⌊y⌋ ≤ 101 := by
  have hx := Int.floor_le x
  have hy := Int.floor_le y
  have hx1 := Int.sub_one_lt_floor x
  have hy1 := Int.sub_one_lt_floor y
  constructor
  · have h99 : (99 : ℚ) < ((⌊x⌋ + ⌊y⌋ : ℤ) : ℚ) := by push_cast; linarith
    have : (99 : ℤ) < ⌊x⌋ + ⌊y⌋ := by exact_mod_cast h99
    omega
  · have : ((⌊x⌋ + ⌊y⌋ : ℤ) : ℚ) ≤ 101 := by push_cast; linarith
    exact_mod_cast this

/-- C3: the claim that a non-numeric or absent input to `getAdmissionOdds`
is treated as 0 fails on the code for non-numeric strings: `parseFloat`
yields `NaN`, the `|| 0` guard applies only to the non-string branch, and
the `NaN` propagates to the result instead of the integer 8 a zero would
give.  Absent inputs are indeed treated as 0. -/
theorem c3_nonnumeric_string_gives_nan :
    getAdmissionOdds (JSVal.str "abc") (JSVal.num (some 50)) = none ∧
    oddsQ 0 50 = 8 ∧
    getAdmissionOdds JSVal.undefined (JSVal.num (some 50)) = some 8 := by
  refine ⟨?_, ?_, ?_⟩
  · simp [getAdmissionOdds, coerceNum, jsParseFloat, trimList, parseDecimal]
  · norm_num [oddsQ, clamp100, jsRound]
  · show some (oddsQ 0 50) = some 8
    norm_num [oddsQ, clamp100, jsRound]

/-- C6: for any score in [0,100], comparing a student against a college
with the same score gives exactly even odds of 50. -/
theorem c6_equal_scores_even_odds (s : ℚ) (_h0 : 0 ≤ s) (_h1 : s ≤ 100) :
    getAdmissionOdds (JSVal.num (some s)) (JSVal.num (some s)) = some 50 := by
  show some (oddsQ s s) = some 50
  simp only [oddsQ, sub_self]
  norm_num [jsRound]

/-- Concrete instance of `c6_equal_scores_even_odds` at the spec's example
score 70. -/
theorem c6_equal_scores_even_odds_witness :
    getAdmissionOdds (JSVal.num (some 70)) (JSVal.num (some 70)) = some 50 :=
  c6_equal_scores_even_odds 70 (by norm_num) (by norm_num)

/-- The full sigmoid-and-scale expression applied to a delta in `oddsQ`:
`sigmoidDelta * deltaMultiplier` written as a function of `delta`. -/
def sigExpr (d : ℚ) : ℚ := d / 50 / (1 + |d / 50| * 0.8) * 50 * 1.5

theorem oddsQ_eq (a b : ℚ) :
    oddsQ a b = jsRound (max 2 (min 98 (50 + sigExpr (clamp100 a - clamp100 b)))) := by
  simp only [oddsQ, sigExpr]

theorem sigExpr_neg (d : ℚ) : sigExpr (-d) = -sigExpr d := by
  simp only [sigExpr, neg_div, abs_neg, neg_mul]

theorem sigExpr_mono {d e : ℚ} (h : d ≤ e) : sigExpr d ≤ sigExpr e := by
  have hcore := sig_core_mono (u := d / 50) (v := e / 50) (by linarith)
  simp only [sigExpr]
  nlinarith [hcore]

theorem jsRound_pair {u v : ℚ} (h : u + v = 100) :
    100 ≤ jsRound u + jsRound v ∧ jsRound u + jsRound v ≤ 101 := by
  unfold jsRound
  exact round_pair (by linarith)

/-- C4: for scores in [0,100], swapping the student and college scores gives
odds summing to 100 up to the ±1 introduced by rounding. -/
theorem c4_odds_symmetry (a b : ℚ) (ha0 : 0 ≤ a) (ha1 : a ≤ 100)
    (hb0 : 0 ≤ b) (hb1 : b ≤ 100) :
    getAdmissionOdds (JSVal.num (some a)) (JSVal.num (some b)) = some (oddsQ a b) ∧
    |oddsQ a b + oddsQ b a - 100| ≤ 1 := by
  refine ⟨rfl, ?_⟩
  have hca : clamp100 a = a := by rw [clamp100, min_eq_right ha1, max_eq_right ha0]
  have hcb : clamp100 b = b := by rw [clamp100, min_eq_right hb1, max_eq_right hb0]
  rw [oddsQ_eq a b, oddsQ_eq b a, hca, hcb,
    show b - a = -(a - b) from by ring, sigExpr_neg, ← sub_eq_add_neg]
  obtain ⟨hl, hr⟩ := jsRound_pair (clamp_sym (sigExpr (a - b)))
  rw [abs_le]
  omega

/-- Concrete instance of `c4_odds_symmetry` at scores 70 and 30
(odds are 87 and 13). -/
theorem c4_odds_symmetry_witness :
    getAdmissionOdds (JSVal.num (some 70)) (JSVal.num (some 30)) = some (oddsQ 70 30) ∧
    |oddsQ 70 30 + oddsQ 30 70 - 100| ≤ 1 :=
  c4_odds_symmetry 70 30 (by norm_num) (by norm_num) (by norm_num) (by norm_num)

/-- C5: the odds are monotonically non-decreasing in the difference of the
clamped scores. -/
theorem c5_odds_monotone (s1 c1 s2 c2 : ℚ)
    (h : clamp100 s1 - clamp100 c1 ≤ clamp100 s2 - clamp100 c2) :
    getAdmissionOdds (JSVal.num (some s1)) (JSVal.num (some c1)) = some (oddsQ s1 c1) ∧
    oddsQ s1 c1 ≤ oddsQ s2 c2 := by
  refine ⟨rfl, ?_⟩
  rw [oddsQ_eq s1 c1, oddsQ_eq s2 c2]
  apply jsRound_mono
  apply max_le_max le_rfl
  apply min_le_min le_rfl
  have := sigExpr_mono h
  linarith

/-- Concrete instance of `c5_odds_monotone`: a delta of -40 gives odds at
most those of a delta of 70. -/
theorem c5_odds_monotone_witness :
    getAdmissionOdds (JSVal.num (some 10)) (JSVal.num (some 50)) = some (oddsQ 10 50) ∧
    oddsQ 10 50 ≤ oddsQ 90 20 :=
  c5_odds_monotone 10 50 90 20 (by norm_num [clamp100, min_def, max_def])

/-- C7: on number inputs `getAdmissionOdds` always answers (a falsy or `NaN`
number is coerced to 0), and the answer is an integer in [2,98]; in
particular the extreme pairs (100,0) and (0,100) give 98 and 2. -/
theorem c7_odds_bounds :
    (∀ x y : Option ℚ,
      getAdmissionOdds (JSVal.num x) (JSVal.num y) =
        some (oddsQ (x.getD 0) (y.getD 0))) ∧
    (∀ s c : ℚ, 2 ≤ oddsQ s c ∧ oddsQ s c ≤ 98) ∧
    oddsQ 100 0 = 98 ∧ oddsQ 0 100 = 2 := by
  refine ⟨?_, ?_, ?_, ?_⟩
  · rintro (_ | x) (_ | y) <;> rfl
  · intro s c
    rw [oddsQ_eq]
    constructor
    · apply le_jsRound
      push_cast
      exact le_max_left _ _
    · apply jsRound_le
      push_cast
      exact max_le (by norm_num) (min_le_left _ _)
  · norm_num [oddsQ, clamp100, jsRound]
  · norm_num [oddsQ, clamp100, jsRound]

/-- C10: a successful capability answer whose integer is out of range is
clamped into [1,10] (0 becomes 1, 12 becomes 10) rather than used raw or
treated as a failure, and for every input and outcome the activities score
lies in [1,10], so the normalized activities dimension lies in [0.1, 1]. -/
theorem c10_activities_clamped :
    getActivitiesScore "Debate team captain" true (GptOutcome.success "0") = 1 ∧
    getActivitiesScore "Debate team captain" true (GptOutcome.success "12") = 10 ∧
    ∀ (text : String) (key : Bool) (out : GptOutcome),
      (1 ≤ getActivitiesScore text key out ∧ getActivitiesScore text key out ≤ 10) ∧
      (0.1 ≤ getActivitiesScore text key out / 10 ∧
        getActivitiesScore text key out / 10 ≤ 1) := by
  refine ⟨?_, ?_, ?_⟩
  · unfold getActivitiesScore
    rw [if_neg (by decide : ¬jsTrim "Debate team captain" = "")]
    norm_num [show firstDigitRun (jsTrim "0") = some 0 from by decide, min_def, max_def]
  · unfold getActivitiesScore
    rw [if_neg (by decide : ¬jsTrim "Debate team captain" = "")]
    norm_num [show firstDigitRun (jsTrim "12") = some 12 from by decide, min_def, max_def]
  · intro text key out
    have hb : 1 ≤ getActivitiesScore text key out ∧ getActivitiesScore text key out ≤ 10 := by
      unfold getActivitiesScore
      split_ifs
      · norm_num
      · norm_num
      · cases out with
        | failure => norm_num
        | success content =>
          rcases h : firstDigitRun (jsTrim content) with _ | n
          · simp only [h]
            norm_num
          · simp only [h]
            constructor
            · exact le_min (by norm_num) (le_max_left _ _)
            · exact min_le_left _ _
    exact ⟨hb, by constructor <;> linarith [hb.1, hb.2]⟩

/-- C8: whenever both tests are absent/empty/zero, the test dimension is the
untested substitute `(800-400)/1200 = 1/3` exactly, and the composite is
strictly higher than the same composite with a zeroed test dimension. -/
theorem c8_untested_policy (s : Student) (a : ℚ) (h : s.isUntaken = true) :
    s.testNorm = 1 / 3 ∧
    0.35 * s.gpaNorm + 0.30 * 0 + 0.15 * s.apNorm + 0.20 * (a / 10) <
      s.composite a := by
  have ht : s.testNorm = 1 / 3 := by
    simp [Student.testNorm, Student.satNorm, Student.actNorm, h]
    norm_num [min_def]
  refine ⟨ht, ?_⟩
  simp only [Student.composite, ht]
  linarith

/-- Concrete instance of `c8_untested_policy` at the spec's example student
(GPA 4 unweighted, no tests, no APs, empty activities, neutral activities
score 5.5). -/
theorem c8_untested_policy_witness :
    Student.isUntaken
      { gpa := JSVal.num (some 4), weighted := false,
        sat := JSVal.jsNull, act := JSVal.jsNull } = true ∧
    (Student.testNorm
      { gpa := JSVal.num (some 4), weighted := false,
        sat := JSVal.jsNull, act := JSVal.jsNull } = 1 / 3 ∧
    0.35 * Student.gpaNorm
      { gpa := JSVal.num (some 4), weighted := false,
        sat := JSVal.jsNull, act := JSVal.jsNull } + 0.30 * 0 +
      0.15 * Student.apNorm
        { gpa := JSVal.num (some 4), weighted := false,
          sat := JSVal.jsNull, act := JSVal.jsNull } + 0.20 * (5.5 / 10) <
      Student.composite
        { gpa := JSVal.num (some 4), weighted := false,
          sat := JSVal.jsNull, act := JSVal.jsNull } 5.5) :=
  ⟨by decide,
   c8_untested_policy
     { gpa := JSVal.num (some 4), weighted := false,
       sat := JSVal.jsNull, act := JSVal.jsNull } 5.5 (by decide)⟩

/-! Bounds of the seven college dimensions. -/

theorem acceptanceNorm_mem (c : College) :
    0 ≤ c.acceptanceNorm ∧ c.acceptanceNorm ≤ 1 := by
  cases hr : parseNum c.acceptance_rate with
  | none => simp [College.acceptanceNorm, hr]
  | some r =>
    simp only [College.acceptanceNorm, hr]
    split_ifs with h1 h2
    · exact ⟨le_min (by norm_num) (by nlinarith [h1.2]), min_le_left _ _⟩
    · constructor <;> linarith [h1.1, h1.2]
    · norm_num

theorem college_satNorm_mem (c : College) : 0 ≤ c.satNorm ∧ c.satNorm ≤ 1 := by
  cases hr : parseNum c.sat_50th_percentile with
  | none => simp [College.satNorm, hr]
  | some q =>
    simp only [College.satNorm, hr]
    split_ifs with h1
    · constructor <;> [linarith [h1.1]; linarith [h1.2]]
    · norm_num

theorem college_actNorm_mem (c : College) : 0 ≤ c.actNorm ∧ c.actNorm ≤ 1 := by
  cases hr : parseNum c.act_50th_percentile with
  | none => simp [College.actNorm, hr]
  | some q =>
    simp only [College.actNorm, hr]
    split_ifs with h1
    · constructor <;> [linarith [h1.1]; linarith [h1.2]]
    · norm_num

theorem college_testNorm_mem (c : College) : 0 ≤ c.testNorm ∧ c.testNorm ≤ 1 := by
  obtain ⟨hs0, hs1⟩ := college_satNorm_mem c
  obtain ⟨ha0, ha1⟩ := college_actNorm_mem c
  exact ⟨le_max_of_le_left hs0, max_le hs1 ha1⟩

theorem graduationNorm_mem (c : College) :
    0 ≤ c.graduationNorm ∧ c.graduationNorm ≤ 1 := by
  cases hr : parseNum c.graduation_rate with
  | none => simp [College.graduationNorm, hr]
  | some r =>
    simp only [College.graduationNorm, hr]
    split_ifs with h1
    · exact ⟨h1.1, h1.2⟩
    · norm_num

theorem retentionNorm_mem (c : College) :
    0 ≤ c.retentionNorm ∧ c.retentionNorm ≤ 1 := by
  cases hr : parseNum c.retention_rate with
  | none => simp [College.retentionNorm, hr]
  | some r =>
    simp only [College.retentionNorm, hr]
    split_ifs with h1
    · exact ⟨h1.1, h1.2⟩
    · norm_num

theorem earningsNorm_mem (c : College) :
    0 ≤ c.earningsNorm ∧ c.earningsNorm ≤ 1 := by
  cases hr : parseNum c.median_earnings_10_years with
  | none => simp [College.earningsNorm, hr]
  | some e =>
    simp only [College.earningsNorm, hr]
    split_ifs with h1
    · exact ⟨le_min (by norm_num) (le_max_left _ _), min_le_left _ _⟩
    · norm_num

theorem enrollmentNorm_mem (c : College) :
    0 ≤ c.enrollmentNorm ∧ c.enrollmentNorm ≤ 1 := by
  cases hr : parseNum c.enrollment with
  | none => simp [College.enrollmentNorm, hr]
  | some e =>
    simp only [College.enrollmentNorm, hr]
    split_ifs with h1 h2 h3
    · rcases abs_cases (e - 15000) with ⟨he, _⟩ | ⟨he, _⟩ <;> rw [he] <;>
        constructor <;> linarith [h2.1, h2.2]
    · norm_num
    · refine ⟨le_min (by norm_num) (by positivity), ?_⟩
      exact (min_le_left _ _).trans (by norm_num)
    · norm_num

theorem ratioNorm_mem (c : College) : 0 ≤ c.ratioNorm ∧ c.ratioNorm ≤ 1 := by
  cases hr : parseNum c.student_faculty_ratio with
  | none => simp [College.ratioNorm, hr]
  | some r =>
    simp only [College.ratioNorm, hr]
    split_ifs with h1
    · exact ⟨le_max_left _ _, max_le (by norm_num) (min_le_left _ _)⟩
    · norm_num

theorem college_composite_mem (c : College) :
    0 ≤ c.composite ∧ c.composite ≤ 1 := by
  obtain ⟨a0, a1⟩ := acceptanceNorm_mem c
  obtain ⟨t0, t1⟩ := college_testNorm_mem c
  obtain ⟨g0, g1⟩ := graduationNorm_mem c
  obtain ⟨r0, r1⟩ := retentionNorm_mem c
  obtain ⟨e0, e1⟩ := earningsNorm_mem c
  obtain ⟨n0, n1⟩ := enrollmentNorm_mem c
  obtain ⟨f0, f1⟩ := ratioNorm_mem c
  unfold College.composite
  constructor <;> nlinarith

/-- C9: for every college record (each field absent, a number or a string),
`rateCollege` is a total function — the embedding itself witnesses that it
is pure and synchronous and cannot throw — returning an integer in
[0,100]. -/
theorem c9_rateCollege_range (c : College) :
    0 ≤ rateCollege c ∧ rateCollege c ≤ 100 := by
  obtain ⟨h0, h1⟩ := college_composite_mem c
  unfold rateCollege
  constructor
  · exact le_jsRound (by push_cast; nlinarith)
  · exact jsRound_le (by push_cast; nlinarith)

/-- C1 fails on the code: with SAT 200 and ACT 0.5 (out-of-range but of the
documented numeric shape), both test branches produce negative values
(`min` caps only from above), so the normalized test dimension is `-1/70`,
outside [0,1]. -/
theorem c1_test_dimension_below_zero :
    Student.testNorm { sat := JSVal.num (some 200), act := JSVal.num (some (0.5 : ℚ)) } =
      -(1 / 70) ∧
    ¬ (0 ≤ Student.testNorm { sat := JSVal.num (some 200), act := JSVal.num (some (0.5 : ℚ)) }) := by
  have h : Student.testNorm { sat := JSVal.num (some 200), act := JSVal.num (some (0.5 : ℚ)) } =
      -(1 / 70) := by
    simp [Student.testNorm, Student.satNorm, Student.actNorm, Student.isUntaken,
      Student.satNum, Student.actNum, coerceNum]
    norm_num
  refine ⟨h, ?_⟩
  rw [h]
  norm_num

/-- C2 fails on the code: a student whose only data is one AP course with
score -1000 (a number, hence of the documented shape) rates -1478, far
outside [0,100] — the AP average is unclamped from below. -/
theorem c2_rateStudent_below_zero :
    rateStudent
      { apCourses := [some { course := "AP Calculus BC", score := JSVal.num (some (-1000)) }] }
      false GptOutcome.failure = -1478 ∧ (-1478 : ℤ) < 0 := by
  refine ⟨?_, by norm_num⟩
  have hval : Student.validAps
      { apCourses := [some { course := "AP Calculus BC", score := JSVal.num (some (-1000)) }] } =
      [{ course := "AP Calculus BC", score := JSVal.num (some (-1000)) }] := by decide
  have hact : getActivitiesScore
      (Student.activitiesText
        { apCourses := [some { course := "AP Calculus BC", score := JSVal.num (some (-1000)) }] })
      false GptOutcome.failure = 5.5 := by
    unfold getActivitiesScore
    rw [if_pos (by decide : jsTrim (Student.activitiesText
      { apCourses := [some { course := "AP Calculus BC", score := JSVal.num (some (-1000)) }] }) = "")]
  simp [rateStudent, Student.composite, Student.gpaNorm, Student.gpaNum,
    Student.testNorm, Student.satNorm, Student.actNorm, Student.isUntaken,
    Student.satNum, Student.actNum, Student.apNorm, Student.apCountNorm,
    Student.apScoreNorm, Student.apAvgScore, Student.apScoreVal, hval, hact, coerceNum]
  norm_num [jsRound, min_def, max_def]
